import Mathlib

/-!
Shallow embedding of the `CapturePhoto` React component
(src/components/feature/CapturePhoto/CapturePhoto.tsx).

The component is a sequential, event-driven state machine.  We model its
React state hooks, the module-level `globalStream` singleton, and the
externally observable effects (calls to `getUserMedia`, canvas draws, the
caller-owned image reference) as one explicit state record, and each
handler of the component as a state transition function.  Asynchronous
platform outcomes (whether `getUserMedia` resolves or rejects, whether the
video/canvas refs are bound, what `toDataURL` returns) are supplied as
explicit environment parameters, so every handler is a pure function.
-/

set_option autoImplicit false

namespace CapturePhoto

/-- Mirrors `type PermissionState = 'granted' | 'denied' | 'prompt'`. -/
inductive PermissionState where
  | granted
  | denied
  | prompt
deriving DecidableEq, Repr

/-- Mirrors `type FacingMode = 'user' | 'environment'`. -/
inductive FacingMode where
  | user
  | environment
deriving DecidableEq, Repr

/-- A single rasterization of the video frame onto the canvas, recording the
canvas dimensions (`canvas.width/height` assignments), whether the horizontal
flip transform was applied (`context.scale(-1, 1)` plus negative-width
`drawImage`), and the encoding parameters passed to `canvas.toDataURL`. -/
structure DrawSpec where
  width : Nat
  height : Nat
  mirrored : Bool
  format : String
  quality : Rat
deriving DecidableEq, Repr

/-- The component state: the React `useState` hooks, the `readyCalledRef`
ref, the module-level `globalStream` slot, and the externally observable
world (alive stream handles, the trace of `getUserMedia` requests, the last
canvas draw, and the caller-owned image element's `src`). -/
structure CameraState where
  isOpen : Bool
  capturedImage : Option String
  error : String
  permission : PermissionState
  isLoading : Bool
  facingMode : FacingMode
  isCameraReady : Bool
  readyCalled : Bool
  globalStream : Option Nat
  alive : List Nat
  nextId : Nat
  lastDraw : Option DrawSpec
  requests : List FacingMode
  extImageSrc : Option String
deriving DecidableEq, Repr

/-- The state at component mount: hook initial values, no stream, no
platform interaction yet. -/
def initState : CameraState :=
  { isOpen := false
    capturedImage := none
    error := ""
    permission := PermissionState.prompt
    isLoading := false
    facingMode := FacingMode.user
    isCameraReady := false
    readyCalled := false
    globalStream := none
    alive := []
    nextId := 0
    lastDraw := none
    requests := []
    extImageSrc := none }

/-- Environment of one stream acquisition attempt: whether the MediaDevices
API is supported, the outcome of `getUserMedia` (`none` = resolves,
`some n` = rejects with an error whose `name` is `n`), and whether
`videoRef.current` is bound when the stream arrives. -/
structure AcqEnv where
  supported : Bool
  outcome : Option String
  videoBound : Bool

/-- Environment of one capture attempt: whether `videoRef.current` and
`canvasRef.current` are bound, whether `canvas.getContext('2d')` returns a
context, the video's intrinsic dimensions, and the platform's
`canvas.toDataURL` encoder. -/
structure CaptureEnv where
  videoBound : Bool
  canvasBound : Bool
  contextOk : Bool
  videoWidth : Nat
  videoHeight : Nat
  encode : DrawSpec → String

/-- Mirrors `stopExistingCameraStreams`: if `globalStream` is set, stop all
its tracks (the handle is no longer alive), then clear the slot. -/
def stopExistingCameraStreams (s : CameraState) : CameraState :=
  { s with
    alive := match s.globalStream with
      | some i => s.alive.erase i
      | none => s.alive
    globalStream := none }

/-- Mirrors `informCameraReady`: an idempotent latch guarded by
`readyCalledRef`; the first call sets the readiness flag and clears the
loading flag, later calls are no-ops. -/
def informCameraReady (s : CameraState) : CameraState :=
  if s.readyCalled then s
  else { s with readyCalled := true, isCameraReady := true, isLoading := false }

/-- Mirrors `startCamera`: throw if the MediaDevices API is unsupported
(error name "Error"); otherwise release any existing global stream, request
a new stream under the given facing-mode constraint, and on success bind it
to the video surface, resetting the readiness latch when the video ref is
bound.  Returns the updated state together with the thrown error name, if
any. -/
def startCamera (env : AcqEnv) (mode : FacingMode) (s : CameraState) :
    CameraState × Option String :=
  if env.supported = false then (s, some "Error")
  else
    let s1 := stopExistingCameraStreams s
    let s2 := { s1 with requests := s1.requests ++ [mode] }
    match env.outcome with
    | some n => (s2, some n)
    | none =>
      let s3 := { s2 with
        globalStream := some s2.nextId
        alive := s2.nextId :: s2.alive
        nextId := s2.nextId + 1 }
      if env.videoBound then ({ s3 with readyCalled := false, isCameraReady := false }, none)
      else (s3, none)

/-- Mirrors the `catch` branch of `requestCameraAccess`: classify the
acquisition failure by platform error name, first match wins. -/
def classifyCameraError (n : String) (s : CameraState) : CameraState :=
  if n = "NotAllowedError" then
    { s with
      error := "Camera access denied. Please allow camera permission and try again."
      permission := PermissionState.denied }
  else if n = "NotFoundError" then
    { s with error := "No camera found on this device." }
  else if n = "NotReadableError" then
    { s with error := "Camera is already in use by another application." }
  else if n = "OverconstrainedError" then
    { s with error := "Camera constraints cannot be satisfied." }
  else
    { s with error := "Failed to access camera. Please try again." }

/-- Mirrors `requestCameraAccess`: set loading, clear error and readiness,
start the camera under the current facing mode; on success mark permission
granted, on failure classify the error and clear the loading flag. -/
def requestCameraAccess (env : AcqEnv) (s : CameraState) : CameraState :=
  let s1 := { s with isLoading := true, error := "", isCameraReady := false }
  let r := startCamera env s1.facingMode s1
  match r.2 with
  | none => { r.1 with permission := PermissionState.granted }
  | some n => { classifyCameraError n r.1 with isLoading := false }

/-- Mirrors `stopCamera`: release the global stream and reset the readiness
latch. -/
def stopCamera (s : CameraState) : CameraState :=
  let s1 := stopExistingCameraStreams s
  { s1 with isCameraReady := false, readyCalled := false }

/-- Mirrors `handleOpen`: open the modal, clear any previous captured image
and error, then request camera access only when permission is granted or
prompt. -/
def handleOpen (env : AcqEnv) (s : CameraState) : CameraState :=
  let s1 := { s with isOpen := true, capturedImage := none, error := "" }
  if s1.permission = PermissionState.granted ∨ s1.permission = PermissionState.prompt then
    requestCameraAccess env s1
  else s1

/-- Mirrors `handleClose`: close the modal, stop the camera, clear the
captured image, error and loading flag. -/
def handleClose (s : CameraState) : CameraState :=
  let s1 := stopCamera { s with isOpen := false }
  { s1 with capturedImage := none, error := "", isLoading := false }

/-- Mirrors `facingMode === 'user' ? 'environment' : 'user'`. -/
def toggleFacing : FacingMode → FacingMode
  | FacingMode.user => FacingMode.environment
  | FacingMode.environment => FacingMode.user

/-- Mirrors `switchCamera`: toggle the facing mode; if a global stream is
active, attempt to start the camera under the new mode (`e1`); if that
fails, surface the switch-failure message, revert the facing mode to its
prior value (the closure-captured `facingMode`), and fall back to
`requestCameraAccess` (`e2`), which runs under the reverted mode. -/
def switchCamera (e1 e2 : AcqEnv) (s : CameraState) : CameraState :=
  let newMode := toggleFacing s.facingMode
  let s1 := { s with facingMode := newMode }
  if s1.globalStream.isSome then
    let s2 := { s1 with isLoading := true, isCameraReady := false }
    let r := startCamera e1 newMode s2
    match r.2 with
    | none => r.1
    | some _ =>
      requestCameraAccess e2
        { r.1 with
          error := "Failed to switch camera. Using default camera."
          facingMode := s.facingMode }
  else s1

/-- Mirrors `capturePhoto`: bail out silently if the video or canvas ref is
unbound or the camera is not ready; report errors if the 2D context is
unavailable or the video has zero intrinsic dimensions; otherwise size the
canvas to the video's intrinsic dimensions, draw with a horizontal flip
exactly when the facing mode is user, encode as JPEG at quality 0.8, and
store the data URL unless it is empty or the "data:," placeholder.
The rasterization performed when all guards pass is `captureSpec`: the
canvas is sized to the video's intrinsic dimensions, the horizontal flip is
applied exactly when the facing mode is user, and the encoding is
`canvas.toDataURL('image/jpeg', 0.8)`. -/
def captureSpec (env : CaptureEnv) (s : CameraState) : DrawSpec :=
  { width := env.videoWidth
    height := env.videoHeight
    mirrored := decide (s.facingMode = FacingMode.user)
    format := "image/jpeg"
    quality := (0.8 : Rat) }

def capturePhoto (env : CaptureEnv) (s : CameraState) : CameraState :=
  if env.videoBound = false ∨ env.canvasBound = false ∨ s.isCameraReady = false then s
  else if env.contextOk = false then
    { s with error := "Canvas context not supported" }
  else if env.videoWidth = 0 ∨ env.videoHeight = 0 then
    { s with error := "Video not ready. Please wait a moment and try again." }
  else
    let spec := captureSpec env s
    let s1 := { s with lastDraw := some spec }
    let url := env.encode spec
    if url ≠ "" ∧ url ≠ "data:," then { s1 with capturedImage := some url }
    else { s1 with error := "Failed to capture photo. Please try again." }

/-- JavaScript truthiness of the `capturedImage` state (a `string | null`):
truthy exactly when it is a non-empty string. -/
def capturedTruthy (s : CameraState) : Bool :=
  match s.capturedImage with
  | some u => decide (u ≠ "")
  | none => false

/-- Mirrors `confirmPhoto`: when a (truthy) captured image exists and the
caller-owned image ref is bound, write the image into the ref's `src` and
close; otherwise do nothing. -/
def confirmPhoto (bound : Bool) (s : CameraState) : CameraState :=
  if capturedTruthy s = true ∧ bound = true then
    handleClose { s with extImageSrc := s.capturedImage }
  else s

/-- Mirrors `retakePhoto`: discard the captured image. -/
def retakePhoto (s : CameraState) : CameraState :=
  { s with capturedImage := none }

/-- The three mutually exclusive views `renderCameraView` can return. -/
inductive View where
  | error
  | preview
  | live
deriving DecidableEq, Repr

/-- Mirrors `renderCameraView`: the error view when the error string is
truthy (non-empty), else the preview when the captured image is truthy,
else the live view. -/
def renderCameraView (s : CameraState) : View :=
  if s.error ≠ "" then View.error
  else if capturedTruthy s = true then View.preview
  else View.live

/-- One externally triggered event of the component: the user-gesture
handlers, a readiness signal from the video element, and the unmount
cleanup effect (which runs `stopExistingCameraStreams` only). -/
inductive Op where
  | openOp (env : AcqEnv)
  | closeOp
  | switchOp (e1 e2 : AcqEnv)
  | unmountOp
  | readyOp
  | captureOp (env : CaptureEnv)
  | confirmOp (bound : Bool)
  | retakeOp
  | retryOp (env : AcqEnv)

/-- Dispatch one event to its handler. -/
def step (s : CameraState) : Op → CameraState
  | Op.openOp env => handleOpen env s
  | Op.closeOp => handleClose s
  | Op.switchOp e1 e2 => switchCamera e1 e2 s
  | Op.unmountOp => stopExistingCameraStreams s
  | Op.readyOp => informCameraReady s
  | Op.captureOp env => capturePhoto env s
  | Op.confirmOp bound => confirmPhoto bound s
  | Op.retakeOp => retakePhoto s
  | Op.retryOp env => requestCameraAccess env s

/-- Run a sequence of events from the mount state. -/
def run (ops : List Op) : CameraState :=
  ops.foldl step initState

/-- Stream-handle invariant: the alive handles are exactly the content of
the global singleton slot (in particular there is at most one). -/
def StreamInv (s : CameraState) : Prop :=
  s.alive = s.globalStream.toList

/-- Captured-image invariant: a stored captured image is never the empty
string nor the `"data:,"` placeholder (the store is guarded). -/
def CapturedInv (s : CameraState) : Prop :=
  ∀ u : String, s.capturedImage = some u → u ≠ "" ∧ u ≠ "data:,"

/-- Reachable-state invariant. -/
def Inv (s : CameraState) : Prop :=
  StreamInv s ∧ CapturedInv s

theorem initState_inv : Inv initState := by
  constructor
  · rfl
  · intro u hu
    simp [initState] at hu

theorem stopExisting_alive (s : CameraState) (h : StreamInv s) :
    (stopExistingCameraStreams s).alive = [] := by
  unfold StreamInv at h
  unfold stopExistingCameraStreams
  cases hg : s.globalStream with
  | none => simp [hg] at h ⊢; exact h
  | some i =>
      simp [hg] at h ⊢
      rw [h]
      simp

theorem stopExisting_globalStream (s : CameraState) :
    (stopExistingCameraStreams s).globalStream = none := rfl

theorem stopExisting_stream (s : CameraState) (h : StreamInv s) :
    StreamInv (stopExistingCameraStreams s) := by
  unfold StreamInv
  rw [stopExisting_alive s h, stopExisting_globalStream]
  rfl

theorem stopExisting_capturedImage (s : CameraState) :
    (stopExistingCameraStreams s).capturedImage = s.capturedImage := rfl

theorem stopExisting_inv (s : CameraState) (h : Inv s) :
    Inv (stopExistingCameraStreams s) := by
  obtain ⟨h1, h2⟩ := h
  exact ⟨stopExisting_stream s h1, fun u hu => h2 u hu⟩

theorem informCameraReady_inv (s : CameraState) (h : Inv s) :
    Inv (informCameraReady s) := by
  unfold informCameraReady
  split
  · exact h
  · obtain ⟨h1, h2⟩ := h
    exact ⟨h1, fun u hu => h2 u hu⟩

theorem startCamera_fst_stream (e : AcqEnv) (m : FacingMode) (s : CameraState)
    (h : StreamInv s) : StreamInv (startCamera e m s).1 := by
  unfold startCamera
  by_cases hs : e.supported = false
  · simp [hs]; exact h
  · simp [hs]
    cases ho : e.outcome with
    | some n =>
        unfold StreamInv
        simp [stopExisting_alive s h, stopExisting_globalStream]
    | none =>
        unfold StreamInv
        split
        · simp [stopExisting_alive s h, stopExisting_globalStream]
        · split <;> simp [stopExisting_alive s h]

theorem startCamera_fst_capturedImage (e : AcqEnv) (m : FacingMode) (s : CameraState) :
    (startCamera e m s).1.capturedImage = s.capturedImage := by
  unfold startCamera
  by_cases hs : e.supported = false
  · simp [hs]
  · simp [hs]
    cases ho : e.outcome with
    | some n => rfl
    | none =>
        split
        · rfl
        · split <;> rfl

theorem startCamera_fst_inv (e : AcqEnv) (m : FacingMode) (s : CameraState)
    (h : Inv s) : Inv (startCamera e m s).1 := by
  obtain ⟨h1, h2⟩ := h
  refine ⟨startCamera_fst_stream e m s h1, ?_⟩
  intro u hu
  rw [startCamera_fst_capturedImage] at hu
  exact h2 u hu

theorem classify_alive (n : String) (s : CameraState) :
    (classifyCameraError n s).alive = s.alive := by
  unfold classifyCameraError
  split <;> try rfl
  split <;> try rfl
  split <;> try rfl
  split <;> rfl

theorem classify_globalStream (n : String) (s : CameraState) :
    (classifyCameraError n s).globalStream = s.globalStream := by
  unfold classifyCameraError
  split <;> try rfl
  split <;> try rfl
  split <;> try rfl
  split <;> rfl

theorem classify_capturedImage (n : String) (s : CameraState) :
    (classifyCameraError n s).capturedImage = s.capturedImage := by
  unfold classifyCameraError
  split <;> try rfl
  split <;> try rfl
  split <;> try rfl
  split <;> rfl

theorem requestCameraAccess_inv (env : AcqEnv) (s : CameraState) (h : Inv s) :
    Inv (requestCameraAccess env s) := by
  obtain ⟨h1, h2⟩ := h
  unfold requestCameraAccess
  have hb : Inv { s with isLoading := true, error := "", isCameraReady := false } :=
    ⟨h1, fun u hu => h2 u hu⟩
  have hsc := startCamera_fst_inv env s.facingMode
    { s with isLoading := true, error := "", isCameraReady := false } hb
  cases ho : (startCamera env s.facingMode
      { s with isLoading := true, error := "", isCameraReady := false }).2 with
  | none =>
      simp only [ho]
      exact ⟨hsc.1, fun u hu => hsc.2 u hu⟩
  | some n =>
      simp only [ho]
      refine ⟨?_, ?_⟩
      · unfold StreamInv
        show (classifyCameraError n _).alive = (classifyCameraError n _).globalStream.toList
        rw [classify_alive, classify_globalStream]
        exact hsc.1
      · intro u hu
        have : (classifyCameraError n (startCamera env s.facingMode
            { s with isLoading := true, error := "", isCameraReady := false }).1).capturedImage
            = some u := hu
        rw [classify_capturedImage] at this
        exact hsc.2 u this

theorem stopCamera_alive (s : CameraState) (h : StreamInv s) :
    (stopCamera s).alive = [] :=
  stopExisting_alive s h

theorem stopCamera_inv (s : CameraState) (h : Inv s) : Inv (stopCamera s) := by
  have hst := stopExisting_inv s h
  exact ⟨hst.1, fun u hu => hst.2 u hu⟩

theorem handleClose_alive (s : CameraState) (h : StreamInv s) :
    (handleClose s).alive = [] :=
  stopExisting_alive { s with isOpen := false } h

theorem handleClose_globalStream (s : CameraState) :
    (handleClose s).globalStream = none := rfl

theorem handleClose_capturedImage (s : CameraState) :
    (handleClose s).capturedImage = none := rfl

theorem handleClose_inv (s : CameraState) (h : Inv s) : Inv (handleClose s) := by
  refine ⟨?_, ?_⟩
  · unfold StreamInv
    rw [handleClose_alive s h.1, handleClose_globalStream]
    rfl
  · intro u hu
    rw [handleClose_capturedImage] at hu
    exact Option.noConfusion hu

theorem handleOpen_inv (env : AcqEnv) (s : CameraState) (h : Inv s) :
    Inv (handleOpen env s) := by
  have hb : Inv { s with isOpen := true, capturedImage := none, error := "" } := by
    refine ⟨h.1, ?_⟩
    intro u hu
    exact Option.noConfusion hu
  simp only [handleOpen]
  split
  · exact requestCameraAccess_inv env _ hb
  · exact hb

theorem switchCamera_inv (e1 e2 : AcqEnv) (s : CameraState) (h : Inv s) :
    Inv (switchCamera e1 e2 s) := by
  have hb : Inv { s with
      facingMode := toggleFacing s.facingMode, isLoading := true, isCameraReady := false } :=
    ⟨h.1, fun u hu => h.2 u hu⟩
  have hsc := startCamera_fst_inv e1 (toggleFacing s.facingMode)
    { s with facingMode := toggleFacing s.facingMode, isLoading := true, isCameraReady := false } hb
  simp only [switchCamera]
  split
  · cases ho : (startCamera e1 (toggleFacing s.facingMode)
        { s with
          facingMode := toggleFacing s.facingMode
          isLoading := true
          isCameraReady := false }).2 with
    | none =>
        simp only [ho]
        exact hsc
    | some n =>
        simp only [ho]
        refine requestCameraAccess_inv e2 _ ⟨hsc.1, ?_⟩
        intro u hu
        exact hsc.2 u hu
  · exact ⟨h.1, fun u hu => h.2 u hu⟩

theorem capturePhoto_inv (env : CaptureEnv) (s : CameraState) (h : Inv s) :
    Inv (capturePhoto env s) := by
  simp only [capturePhoto]
  split
  · exact h
  · split
    · exact ⟨h.1, fun u hu => h.2 u hu⟩
    · split
      · exact ⟨h.1, fun u hu => h.2 u hu⟩
      · split
        next hurl =>
          refine ⟨h.1, ?_⟩
          intro u hu
          have : some _ = some u := hu
          cases this
          exact hurl
        next hurl =>
          exact ⟨h.1, fun u hu => h.2 u hu⟩

theorem confirmPhoto_inv (bound : Bool) (s : CameraState) (h : Inv s) :
    Inv (confirmPhoto bound s) := by
  simp only [confirmPhoto]
  split
  · exact handleClose_inv { s with extImageSrc := s.capturedImage } ⟨h.1, fun u hu => h.2 u hu⟩
  · exact h

theorem retakePhoto_inv (s : CameraState) (h : Inv s) : Inv (retakePhoto s) := by
  refine ⟨h.1, ?_⟩
  intro u hu
  exact Option.noConfusion hu

theorem step_inv (s : CameraState) (op : Op) (h : Inv s) : Inv (step s op) := by
  cases op with
  | openOp env => exact handleOpen_inv env s h
  | closeOp => exact handleClose_inv s h
  | switchOp e1 e2 => exact switchCamera_inv e1 e2 s h
  | unmountOp => exact stopExisting_inv s h
  | readyOp => exact informCameraReady_inv s h
  | captureOp env => exact capturePhoto_inv env s h
  | confirmOp bound => exact confirmPhoto_inv bound s h
  | retakeOp => exact retakePhoto_inv s h
  | retryOp env => exact requestCameraAccess_inv env s h

theorem foldl_inv (ops : List Op) : ∀ s : CameraState, Inv s → Inv (ops.foldl step s) := by
  induction ops with
  | nil => intro s h; exact h
  | cons o t ih =>
      intro s h
      exact ih (step s o) (step_inv s o h)

theorem run_inv (ops : List Op) : Inv (run ops) :=
  foldl_inv ops initState initState_inv

/-- Sample acquisition environment: API supported, `getUserMedia` resolves,
video ref bound. -/
def acqOk : AcqEnv := { supported := true, outcome := none, videoBound := true }

/-- Sample acquisition environment: API supported, `getUserMedia` rejects
with the given error name, video ref bound. -/
def acqFail (n : String) : AcqEnv := { supported := true, outcome := some n, videoBound := true }

/-- Sample capture environment whose video reports 0x0 intrinsic size. -/
def capZero : CaptureEnv :=
  { videoBound := true, canvasBound := true, contextOk := true,
    videoWidth := 0, videoHeight := 0, encode := fun _ => "" }

/-- Sample capture environment: everything bound, 4x3 frame, an encoder
returning a fixed non-placeholder data URL. -/
def capOk : CaptureEnv :=
  { videoBound := true, canvasBound := true, contextOk := true,
    videoWidth := 4, videoHeight := 3, encode := fun _ => "data:image/jpeg;base64,AA" }

/-- Sample state whose readiness flag is set. -/
def readyState : CameraState := { initState with isCameraReady := true }

theorem renderCameraView_error_of_ne (s : CameraState) (h : s.error ≠ "") :
    renderCameraView s = View.error := by
  simp [renderCameraView, h]

theorem renderCameraView_preview_of (s : CameraState) (he : s.error = "")
    (hu : capturedTruthy s = true) : renderCameraView s = View.preview := by
  simp [renderCameraView, he, hu]

theorem run_append_close (ops : List Op) :
    run (ops ++ [Op.closeOp]) = handleClose (run ops) := by
  simp [run, List.foldl_append, step]

theorem run_append_unmount (ops : List Op) :
    run (ops ++ [Op.unmountOp]) = stopExistingCameraStreams (run ops) := by
  simp [run, List.foldl_append, step]

/-- C1: For every sequence of open(), close(), switch(), and unmount
operations (and any other component events), at most one camera stream
handle is alive at any instant; the state just before any new
`getUserMedia` request — `startCamera` requests only on the output of
`stopExistingCameraStreams` — has zero alive handles, so acquisition fully
releases the previous global handle before requesting a new one; and after
close() or unmount the number of alive stream handles is exactly zero
regardless of prior state. -/
theorem claim_c1_stream_singleton (ops : List Op) :
    (run ops).alive.length ≤ 1
    ∧ (stopExistingCameraStreams (run ops)).alive = []
    ∧ (run (ops ++ [Op.closeOp])).alive = []
    ∧ (run (ops ++ [Op.unmountOp])).alive = [] := by
  have hinv := run_inv ops
  refine ⟨?_, stopExisting_alive _ hinv.1, ?_, ?_⟩
  · rw [hinv.1]
    cases (run ops).globalStream <;> simp
  · rw [run_append_close]
    exact handleClose_alive _ hinv.1
  · rw [run_append_unmount]
    exact stopExisting_alive _ hinv.1

/-- C2: For every acquired stream handle, the readiness flag latches
false→true at most once: the first readiness signal sets the flag and
clears the loading flag, any later signal is a no-op (`informCameraReady`
is idempotent), and a successful new acquisition with the video surface
bound resets the latch to false. -/
theorem claim_c2_ready_latch (s : CameraState) (e : AcqEnv) (m : FacingMode) :
    (s.readyCalled = true → informCameraReady s = s)
    ∧ (s.readyCalled = false →
        (informCameraReady s).isCameraReady = true
        ∧ (informCameraReady s).isLoading = false
        ∧ (informCameraReady s).readyCalled = true)
    ∧ informCameraReady (informCameraReady s) = informCameraReady s
    ∧ (e.supported = true → e.outcome = none → e.videoBound = true →
        (startCamera e m s).1.readyCalled = false
        ∧ (startCamera e m s).1.isCameraReady = false) := by
  refine ⟨?_, ?_, ?_, ?_⟩
  · intro h
    simp [informCameraReady, h]
  · intro h
    simp [informCameraReady, h]
  · by_cases h : s.readyCalled <;> simp [informCameraReady, h]
  · intro hs ho hv
    simp [startCamera, hs, ho, hv]

/-- Witness for C2 at concrete inputs: a redundant signal after the first is
a no-op, the first signal sets the flag, and a fresh successful acquisition
resets the latch. -/
theorem claim_c2_ready_latch_witness :
    informCameraReady (informCameraReady initState) = informCameraReady initState
    ∧ (informCameraReady initState).isCameraReady = true
    ∧ (startCamera { supported := true, outcome := none, videoBound := true }
        FacingMode.user initState).1.readyCalled = false :=
  ⟨(claim_c2_ready_latch initState ⟨true, none, true⟩ FacingMode.user).2.2.1,
    ((claim_c2_ready_latch initState ⟨true, none, true⟩ FacingMode.user).2.1 rfl).1,
    ((claim_c2_ready_latch initState ⟨true, none, true⟩ FacingMode.user).2.2.2 rfl rfl rfl).1⟩

/-- C3: Whenever capture() is invoked while the readiness flag is false, or
the video reports intrinsic size 0x0, or the canvas or its 2D context is
unavailable, capture is rejected: no captured frame is stored, the view
does not switch to preview, and no state other than (optionally) the error
message changes. -/
theorem claim_c3_capture_rejected (env : CaptureEnv) (s : CameraState)
    (h : s.isCameraReady = false ∨ env.videoWidth = 0 ∨ env.videoHeight = 0
      ∨ env.canvasBound = false ∨ env.contextOk = false) :
    capturePhoto env s = { s with error := (capturePhoto env s).error }
    ∧ (capturePhoto env s).capturedImage = s.capturedImage
    ∧ (renderCameraView (capturePhoto env s) = View.preview
        → renderCameraView s = View.preview) := by
  simp only [capturePhoto]
  split
  · exact ⟨rfl, rfl, fun hp => hp⟩
  next hg1 =>
    split
    next =>
      refine ⟨rfl, rfl, ?_⟩
      intro hp
      have hv' : renderCameraView { s with error := "Canvas context not supported" } = View.error :=
        renderCameraView_error_of_ne _
          (show ("Canvas context not supported" : String) ≠ "" from by decide)
      rw [hv'] at hp
      exact View.noConfusion hp
    next hg2 =>
      split
      next =>
        refine ⟨rfl, rfl, ?_⟩
        intro hp
        have hv' : renderCameraView
            { s with error := "Video not ready. Please wait a moment and try again." }
            = View.error :=
          renderCameraView_error_of_ne _
            (show ("Video not ready. Please wait a moment and try again." : String) ≠ ""
              from by decide)
        rw [hv'] at hp
        exact View.noConfusion hp
      next hg3 =>
        exfalso
        push_neg at hg1 hg3
        rcases h with h | h | h | h | h
        · exact absurd h (by simpa using hg1.2.2)
        · exact absurd h (by simpa using hg3.1)
        · exact absurd h (by simpa using hg3.2)
        · exact absurd h (by simpa using hg1.2.1)
        · exact absurd h hg2

/-- Witness for C3 at a concrete input: a capture attempted while the video
reports 0x0 intrinsic size stores no frame and does not switch the view to
preview. -/
theorem claim_c3_capture_rejected_witness :
    (capturePhoto capZero readyState).capturedImage = readyState.capturedImage
    ∧ (renderCameraView (capturePhoto capZero readyState) = View.preview
      → renderCameraView readyState = View.preview) :=
  ⟨(claim_c3_capture_rejected capZero readyState (Or.inr (Or.inl rfl))).2.1,
    (claim_c3_capture_rejected capZero readyState (Or.inr (Or.inl rfl))).2.2⟩

/-- C4: When capture() proceeds (all guards pass), the canvas is sized to
exactly the video's intrinsic width and height, the horizontal flip is
applied if and only if the facing mode is user, the frame is encoded as
JPEG at quality 0.8 into a data URL; an empty or "data:," encoding reports
a capture failure and stores nothing, otherwise the result is stored as the
captured image, which switches the view to preview. -/
theorem claim_c4_capture_success (env : CaptureEnv) (s : CameraState)
    (hv : env.videoBound = true) (hc : env.canvasBound = true)
    (hr : s.isCameraReady = true) (hctx : env.contextOk = true)
    (hw : env.videoWidth ≠ 0) (hh : env.videoHeight ≠ 0) :
    (capturePhoto env s).lastDraw = some (captureSpec env s)
    ∧ ((captureSpec env s).width = env.videoWidth
        ∧ (captureSpec env s).height = env.videoHeight
        ∧ (captureSpec env s).format = "image/jpeg"
        ∧ (captureSpec env s).quality = (0.8 : Rat))
    ∧ ((captureSpec env s).mirrored = true ↔ s.facingMode = FacingMode.user)
    ∧ (env.encode (captureSpec env s) = "" ∨ env.encode (captureSpec env s) = "data:," →
        (capturePhoto env s).capturedImage = s.capturedImage
        ∧ (capturePhoto env s).error = "Failed to capture photo. Please try again.")
    ∧ (env.encode (captureSpec env s) ≠ "" → env.encode (captureSpec env s) ≠ "data:," →
        (capturePhoto env s).capturedImage = some (env.encode (captureSpec env s))
        ∧ (capturePhoto env s).error = s.error
        ∧ (s.error = "" → renderCameraView (capturePhoto env s) = View.preview)) := by
  have hred : capturePhoto env s =
      (if env.encode (captureSpec env s) ≠ "" ∧ env.encode (captureSpec env s) ≠ "data:," then
        { s with lastDraw := some (captureSpec env s),
                 capturedImage := some (env.encode (captureSpec env s)) }
      else
        { s with lastDraw := some (captureSpec env s),
                 error := "Failed to capture photo. Please try again." }) := by
    unfold capturePhoto
    rw [if_neg (by simp [hv, hc, hr]), if_neg (by simp [hctx]), if_neg (by simp [hw, hh])]
  refine ⟨?_, ⟨rfl, rfl, rfl, rfl⟩, ?_, ?_, ?_⟩
  · rw [hred]
    split <;> rfl
  · simp [captureSpec]
  · intro hu
    have hcond : ¬(env.encode (captureSpec env s) ≠ "" ∧ env.encode (captureSpec env s) ≠ "data:,") := by
      rcases hu with hu | hu <;> simp [hu]
    rw [hred, if_neg hcond]
    exact ⟨rfl, rfl⟩
  · intro h1 h2
    rw [hred, if_pos ⟨h1, h2⟩]
    refine ⟨rfl, rfl, ?_⟩
    intro he
    apply renderCameraView_preview_of
    · exact he
    · simp [capturedTruthy, h1]

/-- Witness for C4 at a concrete input: with a 4x3 front-camera frame and a
non-placeholder encoder, the draw is mirrored, sized 4x3, and the encoding
is stored as the captured image. -/
theorem claim_c4_capture_success_witness :
    (capturePhoto capOk readyState).lastDraw = some (captureSpec capOk readyState)
    ∧ (capturePhoto capOk readyState).capturedImage = some "data:image/jpeg;base64,AA" := by
  have h := claim_c4_capture_success capOk readyState rfl rfl rfl rfl
    (by decide) (by decide)
  exact ⟨h.1, (h.2.2.2.2 (by decide) (by decide)).1⟩

theorem startCamera_fail (e : AcqEnv) (m : FacingMode) (s : CameraState) (n : String)
    (hs : e.supported = true) (ho : e.outcome = some n) :
    startCamera e m s =
      ({ stopExistingCameraStreams s with requests := s.requests ++ [m] }, some n) := by
  unfold startCamera
  rw [if_neg (by simp [hs]), ho]
  rfl

theorem requestCameraAccess_fail (env : AcqEnv) (s : CameraState) (n : String)
    (hs : env.supported = true) (ho : env.outcome = some n) :
    requestCameraAccess env s =
      { classifyCameraError n
          { stopExistingCameraStreams
              { s with isLoading := true, error := "", isCameraReady := false }
            with requests := s.requests ++ [s.facingMode] }
        with isLoading := false } := by
  have h1 := startCamera_fail env s.facingMode
    { s with isLoading := true, error := "", isCameraReady := false } n hs ho
  simp only [requestCameraAccess]
  rw [h1]

theorem classify_isLoading (n : String) (s : CameraState) :
    (classifyCameraError n s).isLoading = s.isLoading := by
  unfold classifyCameraError
  split <;> try rfl
  split <;> try rfl
  split <;> try rfl
  split <;> rfl

/-- C5: Every acquisition failure is classified by platform error name with
first match winning: permission-denial sets permission denied plus the
denial message; device-absent, device-busy and constraints-unsatisfiable
produce their dedicated messages; any other name produces the generic
message; in every failure case the loading flag is cleared and the view is
the error view. -/
theorem claim_c5_error_classification (env : AcqEnv) (s : CameraState) (n : String)
    (hs : env.supported = true) (ho : env.outcome = some n) :
    (requestCameraAccess env s).isLoading = false
    ∧ (requestCameraAccess env s).error ≠ ""
    ∧ renderCameraView (requestCameraAccess env s) = View.error
    ∧ (n = "NotAllowedError" →
        (requestCameraAccess env s).error
          = "Camera access denied. Please allow camera permission and try again."
        ∧ (requestCameraAccess env s).permission = PermissionState.denied)
    ∧ (n ≠ "NotAllowedError" → (requestCameraAccess env s).permission = s.permission)
    ∧ (n = "NotFoundError" →
        (requestCameraAccess env s).error = "No camera found on this device.")
    ∧ (n = "NotReadableError" →
        (requestCameraAccess env s).error = "Camera is already in use by another application.")
    ∧ (n = "OverconstrainedError" →
        (requestCameraAccess env s).error = "Camera constraints cannot be satisfied.")
    ∧ (n ≠ "NotAllowedError" → n ≠ "NotFoundError" → n ≠ "NotReadableError" →
        n ≠ "OverconstrainedError" →
        (requestCameraAccess env s).error = "Failed to access camera. Please try again.") := by
  rw [requestCameraAccess_fail env s n hs ho]
  by_cases h1 : n = "NotAllowedError"
  · subst h1
    refine ⟨rfl, by simp [classifyCameraError, stopExistingCameraStreams], ?_, fun _ => ⟨by simp [classifyCameraError, stopExistingCameraStreams], by simp [classifyCameraError, stopExistingCameraStreams]⟩,
      fun hn => absurd rfl hn, by simp, by simp, by simp, fun hn => absurd rfl hn⟩
    exact renderCameraView_error_of_ne _ (by simp [classifyCameraError, stopExistingCameraStreams])
  · by_cases h2 : n = "NotFoundError"
    · subst h2
      refine ⟨rfl, by simp [classifyCameraError, stopExistingCameraStreams], ?_, by simp, fun _ => by simp [classifyCameraError, stopExistingCameraStreams], fun _ => by simp [classifyCameraError, stopExistingCameraStreams],
        by simp, by simp, fun _ hn => absurd rfl hn⟩
      exact renderCameraView_error_of_ne _ (by simp [classifyCameraError, stopExistingCameraStreams])
    · by_cases h3 : n = "NotReadableError"
      · subst h3
        refine ⟨rfl, by simp [classifyCameraError, stopExistingCameraStreams], ?_, by simp, fun _ => by simp [classifyCameraError, stopExistingCameraStreams], by simp,
          fun _ => by simp [classifyCameraError, stopExistingCameraStreams], by simp, fun _ _ hn => absurd rfl hn⟩
        exact renderCameraView_error_of_ne _ (by simp [classifyCameraError, stopExistingCameraStreams])
      · by_cases h4 : n = "OverconstrainedError"
        · subst h4
          refine ⟨rfl, by simp [classifyCameraError, stopExistingCameraStreams], ?_, by simp, fun _ => by simp [classifyCameraError, stopExistingCameraStreams], by simp, by simp,
            fun _ => by simp [classifyCameraError, stopExistingCameraStreams], fun _ _ _ hn => absurd rfl hn⟩
          exact renderCameraView_error_of_ne _ (by simp [classifyCameraError, stopExistingCameraStreams])
        · refine ⟨rfl, by simp [classifyCameraError, stopExistingCameraStreams, h1, h2, h3, h4], ?_,
            fun hn => absurd hn h1, fun _ => by simp [classifyCameraError, stopExistingCameraStreams, h1, h2, h3, h4],
            fun hn => absurd hn h2, fun hn => absurd hn h3, fun hn => absurd hn h4,
            fun _ _ _ _ => by simp [classifyCameraError, stopExistingCameraStreams, h1, h2, h3, h4]⟩
          exact renderCameraView_error_of_ne _
            (by simp [classifyCameraError, stopExistingCameraStreams, h1, h2, h3, h4])

/-- Witness for C5 at a concrete input: a `NotFoundError` rejection yields
the no-camera message, a cleared loading flag and the error view. -/
theorem claim_c5_error_classification_witness :
    (requestCameraAccess (acqFail "NotFoundError") initState).isLoading = false
    ∧ renderCameraView (requestCameraAccess (acqFail "NotFoundError") initState) = View.error
    ∧ (requestCameraAccess (acqFail "NotFoundError") initState).error
        = "No camera found on this device." := by
  have h := claim_c5_error_classification (acqFail "NotFoundError") initState
    "NotFoundError" rfl rfl
  exact ⟨h.1, h.2.2.1, h.2.2.2.2.2.1 rfl⟩

/-- C6: Confirming an existing captured frame writes exactly that frame's
encoded data into the caller-owned image reference and returns the widget
to the closed state: modal closed, stream released (no alive handles),
captured frame and error cleared. -/
theorem claim_c6_confirm_writes_and_closes (s : CameraState) (d : String)
    (hcap : s.capturedImage = some d) (hd : d ≠ "")
    (hstream : StreamInv s) :
    (confirmPhoto true s).extImageSrc = some d
    ∧ (confirmPhoto true s).isOpen = false
    ∧ (confirmPhoto true s).globalStream = none
    ∧ (confirmPhoto true s).alive = []
    ∧ (confirmPhoto true s).capturedImage = none
    ∧ (confirmPhoto true s).error = ""
    ∧ (confirmPhoto true s).isCameraReady = false
    ∧ (confirmPhoto true s).isLoading = false := by
  have ht : capturedTruthy s = true := by
    simp [capturedTruthy, hcap, hd]
  simp only [confirmPhoto, ht, and_self, if_true]
  refine ⟨?_, rfl, rfl, ?_, rfl, rfl, rfl, rfl⟩
  · exact hcap
  · exact handleClose_alive { s with extImageSrc := s.capturedImage } hstream

/-- Witness for C6 at a concrete input: confirming a stored frame writes it
to the image reference and closes the widget. -/
theorem claim_c6_confirm_writes_and_closes_witness :
    (confirmPhoto true { initState with capturedImage := some "data:image/jpeg;base64,AA" }).extImageSrc
      = some "data:image/jpeg;base64,AA"
    ∧ (confirmPhoto true { initState with capturedImage := some "data:image/jpeg;base64,AA" }).isOpen
      = false
    ∧ (confirmPhoto true { initState with capturedImage := some "data:image/jpeg;base64,AA" }).alive
      = [] := by
  have h := claim_c6_confirm_writes_and_closes
    { initState with capturedImage := some "data:image/jpeg;base64,AA" }
    "data:image/jpeg;base64,AA" rfl (by decide) rfl
  exact ⟨h.1, h.2.1, h.2.2.2.1⟩

theorem startCamera_fst_requests (e : AcqEnv) (m : FacingMode) (s : CameraState)
    (hs : e.supported = true) :
    (startCamera e m s).1.requests = s.requests ++ [m] := by
  unfold startCamera
  rw [if_neg (by simp [hs])]
  cases ho : e.outcome with
  | some n => rfl
  | none =>
      split
      · rfl
      · split <;> rfl

theorem startCamera_fst_facingMode (e : AcqEnv) (m : FacingMode) (s : CameraState) :
    (startCamera e m s).1.facingMode = s.facingMode := by
  unfold startCamera
  by_cases hs : e.supported = false
  · simp [hs]
  · simp [hs]
    cases ho : e.outcome with
    | some n => rfl
    | none =>
        split
        · rfl
        · split <;> rfl

theorem classify_requests (n : String) (s : CameraState) :
    (classifyCameraError n s).requests = s.requests := by
  unfold classifyCameraError
  split <;> try rfl
  split <;> try rfl
  split <;> try rfl
  split <;> rfl

theorem classify_facingMode (n : String) (s : CameraState) :
    (classifyCameraError n s).facingMode = s.facingMode := by
  unfold classifyCameraError
  split <;> try rfl
  split <;> try rfl
  split <;> try rfl
  split <;> rfl

theorem requestCameraAccess_requests (env : AcqEnv) (s : CameraState)
    (hs : env.supported = true) :
    (requestCameraAccess env s).requests = s.requests ++ [s.facingMode] := by
  simp only [requestCameraAccess]
  cases ho : (startCamera env s.facingMode
      { s with isLoading := true, error := "", isCameraReady := false }).2 with
  | none =>
      simp only [ho]
      exact startCamera_fst_requests env s.facingMode _ hs
  | some n =>
      simp only [ho]
      rw [show ({ classifyCameraError n (startCamera env s.facingMode
          { s with isLoading := true, error := "", isCameraReady := false }).1
          with isLoading := false } : CameraState).requests
        = (classifyCameraError n (startCamera env s.facingMode
          { s with isLoading := true, error := "", isCameraReady := false }).1).requests from rfl]
      rw [classify_requests]
      exact startCamera_fst_requests env s.facingMode _ hs

theorem requestCameraAccess_facingMode (env : AcqEnv) (s : CameraState) :
    (requestCameraAccess env s).facingMode = s.facingMode := by
  simp only [requestCameraAccess]
  cases ho : (startCamera env s.facingMode
      { s with isLoading := true, error := "", isCameraReady := false }).2 with
  | none =>
      simp only [ho]
      exact startCamera_fst_facingMode env s.facingMode _
  | some n =>
      simp only [ho]
      rw [show ({ classifyCameraError n (startCamera env s.facingMode
          { s with isLoading := true, error := "", isCameraReady := false }).1
          with isLoading := false } : CameraState).facingMode
        = (classifyCameraError n (startCamera env s.facingMode
          { s with isLoading := true, error := "", isCameraReady := false }).1).facingMode from rfl]
      rw [classify_facingMode]
      exact startCamera_fst_facingMode env s.facingMode _

/-- C7: When switch() toggles the facing mode and acquisition under the new
mode fails, the facing mode is reverted to its prior value, the message
"Failed to switch camera. Using default camera." is surfaced on the state
handed to the fallback, and a fallback acquisition is attempted under the
reverted (prior) facing mode — the trace of `getUserMedia` requests ends
with the toggled mode followed by the prior mode. -/
theorem claim_c7_switch_fallback (e1 e2 : AcqEnv) (s : CameraState) (i : Nat) (n : String)
    (hg : s.globalStream = some i) (h1 : e1.supported = true)
    (hf : e1.outcome = some n) (h2 : e2.supported = true) :
    (∃ si : CameraState,
        switchCamera e1 e2 s = requestCameraAccess e2 si
        ∧ si.error = "Failed to switch camera. Using default camera."
        ∧ si.facingMode = s.facingMode)
    ∧ (switchCamera e1 e2 s).facingMode = s.facingMode
    ∧ (switchCamera e1 e2 s).requests
        = s.requests ++ [toggleFacing s.facingMode, s.facingMode] := by
  have hsw : switchCamera e1 e2 s =
      requestCameraAccess e2
        { stopExistingCameraStreams
            { s with facingMode := toggleFacing s.facingMode,
                     isLoading := true, isCameraReady := false }
          with requests := s.requests ++ [toggleFacing s.facingMode],
               error := "Failed to switch camera. Using default camera.",
               facingMode := s.facingMode } := by
    simp only [switchCamera]
    rw [if_pos (by simp [hg])]
    rw [startCamera_fail e1 (toggleFacing s.facingMode) _ n h1 hf]
  refine ⟨⟨_, hsw, rfl, rfl⟩, ?_, ?_⟩
  · rw [hsw, requestCameraAccess_facingMode]
  · rw [hsw, requestCameraAccess_requests _ _ h2]
    show (s.requests ++ [toggleFacing s.facingMode]) ++ [s.facingMode]
      = s.requests ++ [toggleFacing s.facingMode, s.facingMode]
    simp

/-- Sample state with one alive stream handle held by the global slot. -/
def streamingState : CameraState :=
  { initState with globalStream := some 0, alive := [0], nextId := 1 }

/-- Witness for C7 at a concrete input: a failing switch on a streaming
state reverts the facing mode and requests the toggled mode then the prior
mode. -/
theorem claim_c7_switch_fallback_witness :
    (switchCamera (acqFail "AbortError") acqOk streamingState).facingMode
      = streamingState.facingMode
    ∧ (switchCamera (acqFail "AbortError") acqOk streamingState).requests
      = streamingState.requests
          ++ [toggleFacing streamingState.facingMode, streamingState.facingMode] := by
  have h := claim_c7_switch_fallback (acqFail "AbortError") acqOk streamingState 0
    "AbortError" rfl rfl rfl rfl
  exact ⟨h.2.1, h.2.2⟩

/-- Sample state whose tracked permission is denied. -/
def deniedState : CameraState := { initState with permission := PermissionState.denied }

/-- C8 counterexample: the claim "open() always attempts acquisition for
every permission value" is false — opening with permission denied performs
no `getUserMedia` request and acquires no stream, even in an environment
where acquisition would succeed, while the same open from the prompt state
does request. -/
theorem claim_c8_counterexample :
    (handleOpen acqOk deniedState).requests = []
    ∧ (handleOpen acqOk deniedState).globalStream = none
    ∧ (handleOpen acqOk initState).requests = [FacingMode.user] := by
  refine ⟨rfl, rfl, rfl⟩

/-- C8 (amended): the tracked permission state partially gates acquisition
on open(): open() attempts acquisition (issues a `getUserMedia` request)
when permission is granted or prompt, classifying failures only after the
attempt, but when permission is denied open() performs no acquisition
attempt and only resets the view state. -/
theorem claim_c8_permission_gates_open (env : AcqEnv) (s : CameraState) :
    ((s.permission = PermissionState.granted ∨ s.permission = PermissionState.prompt) →
      env.supported = true →
      (handleOpen env s).requests = s.requests ++ [s.facingMode])
    ∧ (s.permission = PermissionState.denied →
      handleOpen env s = { s with isOpen := true, capturedImage := none, error := "" }) := by
  constructor
  · intro hp hs
    simp only [handleOpen]
    rw [if_pos (by simpa using hp)]
    rw [requestCameraAccess_requests env _ hs]
  · intro hp
    simp only [handleOpen]
    rw [if_neg (by simp [hp])]

/-- Witness for C8 (amended) at concrete inputs: opening from prompt
requests the camera; opening from denied only opens the modal. -/
theorem claim_c8_permission_gates_open_witness :
    (handleOpen acqOk initState).requests = initState.requests ++ [initState.facingMode]
    ∧ handleOpen acqOk deniedState
        = { deniedState with isOpen := true, capturedImage := none, error := "" } :=
  ⟨(claim_c8_permission_gates_open acqOk initState).1 (Or.inr rfl) rfl,
    (claim_c8_permission_gates_open acqOk deniedState).2 rfl⟩

/-- C9: In every reachable state, exactly one of the three views is
rendered, selected in strict priority order: a non-empty error always wins
over a captured frame, and a captured frame always wins over the live
camera feed. -/
theorem claim_c9_view_priority (ops : List Op) :
    (renderCameraView (run ops) = View.error ∨ renderCameraView (run ops) = View.preview
      ∨ renderCameraView (run ops) = View.live)
    ∧ ((run ops).error ≠ "" → renderCameraView (run ops) = View.error)
    ∧ ((run ops).error = "" → ∀ u : String, (run ops).capturedImage = some u →
        renderCameraView (run ops) = View.preview)
    ∧ ((run ops).error = "" → (run ops).capturedImage = none →
        renderCameraView (run ops) = View.live) := by
  have hinv := run_inv ops
  refine ⟨?_, fun h => renderCameraView_error_of_ne _ h, ?_, ?_⟩
  · unfold renderCameraView
    split
    · exact Or.inl rfl
    · split
      · exact Or.inr (Or.inl rfl)
      · exact Or.inr (Or.inr rfl)
  · intro he u hu
    have hne := (hinv.2 u hu).1
    exact renderCameraView_preview_of _ he (by simp [capturedTruthy, hu, hne])
  · intro he hc
    simp [renderCameraView, he, capturedTruthy, hc]

/-- Witness for C9 at a concrete input: after an open whose acquisition
rejects with `NotFoundError`, the error view (and no other) is rendered. -/
theorem claim_c9_view_priority_witness :
    renderCameraView (run [Op.openOp (acqFail "NotFoundError")]) = View.error :=
  (claim_c9_view_priority [Op.openOp (acqFail "NotFoundError")]).2.1 (by decide)

/-- C10: If confirm is invoked while no captured frame exists or while the
caller-owned external image reference is unbound, confirm is a complete
no-op: the image reference is not written, the modal stays open, the
stream is not released, and all state is retained. -/
theorem claim_c10_confirm_noop (bound : Bool) (s : CameraState)
    (h : s.capturedImage = none ∨ bound = false) :
    confirmPhoto bound s = s := by
  rcases h with h | h
  · simp [confirmPhoto, capturedTruthy, h]
  · simp [confirmPhoto, h]

/-- Witness for C10 at a concrete input: confirming with an unbound image
reference changes nothing. -/
theorem claim_c10_confirm_noop_witness :
    confirmPhoto false initState = initState :=
  claim_c10_confirm_noop false initState (Or.inr rfl)

end CapturePhoto
